import Mathlib

/-!
Shallow embedding of the authentication core of the `nestjs-microservices-demo`
repository: the `AuthService` orchestrator (`apps/auth-service/src/auth.service.ts`),
the `TokenService`, `PasswordService`, `UserRepository` and
`RefreshTokenRepository` it is built from.

Modelling conventions:
* The Prisma database is a `Store` value: a list of `AuthUser` rows and a list
  of `RefreshToken` rows.  Prisma `findUnique`/`findFirst` become `List.find?`,
  `update`/`updateMany` become `List.map`, `delete` becomes `List.filter`.
* `Date` timestamps are `Nat` milliseconds; `Date.now()` is an explicit `now`
  parameter threaded through each operation.
* Randomness (uuidv4 tokens, database-generated ids) is modelled by explicit
  `fresh*` parameters; freshness/uniqueness is stated as a hypothesis where a
  theorem needs it.
* bcrypt hashing and JWT signing are external cryptographic primitives, out of
  scope of the spec's core; a `PasswordHasher` record of abstract functions
  stands for bcrypt, and an access token is represented by its signed payload.
* `RpcException(msg)` thrown by the service becomes an `Except.error`
  result; database writes performed before a throw persist, so every
  operation returns its (possibly updated) `Store` alongside the
  `Except` outcome, plus the list of RabbitMQ events emitted.
-/

/-- A row of the Prisma `AuthUser` table (see `prisma/schema.prisma` usage in
`user.repository.ts`).  `provider` is the `AuthProvider` enum: `"email"`,
`"google"` or `"apple"`. -/
structure AuthUser where
  id : String
  email : String
  name : String
  password : Option String
  provider : String
  providerId : Option String
  passwordResetToken : Option String
  passwordResetExpires : Option Nat
  createdAt : Nat
deriving DecidableEq, Repr

/-- A row of the Prisma `RefreshToken` table (see `refresh-token.repository.ts`). -/
structure RefreshTokenRow where
  token : String
  userId : String
  expiresAt : Nat
  revoked : Bool
deriving DecidableEq, Repr

/-- The database state visible to the auth service. -/
structure Store where
  users : List AuthUser
  refreshTokens : List RefreshTokenRow
deriving DecidableEq, Repr

/-- JS `String.prototype.toLowerCase()` as used on email addresses: ASCII
lower-casing, character by character (structurally recursive so that concrete
stores evaluate inside the kernel; `String.toLower` in core is well-founded
recursion, which does not reduce there). -/
def toLowerCase (s : String) : String := ⟨s.data.map Char.toLower⟩

namespace UserRepository

/-- `CreateUserData` from `user.repository.ts`. -/
structure CreateUserData where
  email : String
  name : String
  password : Option String
  provider : String
  providerId : Option String
deriving DecidableEq, Repr

/-- `UserRepository.create`: inserts a row, lower-casing the email; the
database generates the id (`freshId`) and `createdAt` (`now`). -/
def create (s : Store) (freshId : String) (now : Nat) (d : CreateUserData) :
    AuthUser × Store :=
  let u : AuthUser :=
    { id := freshId, email := toLowerCase d.email, name := d.name,
      password := d.password, provider := d.provider, providerId := d.providerId,
      passwordResetToken := none, passwordResetExpires := none, createdAt := now }
  (u, { s with users := s.users ++ [u] })

/-- `UserRepository.findById` (`findUnique where id`). -/
def findById (s : Store) (id : String) : Option AuthUser :=
  s.users.find? fun u => u.id == id

/-- `UserRepository.findByEmail` (`findUnique where email = email.toLowerCase()`). -/
def findByEmail (s : Store) (email : String) : Option AuthUser :=
  s.users.find? fun u => u.email == toLowerCase email

/-- `UserRepository.findByProvider` (`findFirst where provider, providerId`). -/
def findByProvider (s : Store) (provider providerId : String) : Option AuthUser :=
  s.users.find? fun u => u.provider == provider && u.providerId == some providerId

/-- `UserRepository.findByPasswordResetToken` (`findFirst where passwordResetToken`). -/
def findByPasswordResetToken (s : Store) (token : String) : Option AuthUser :=
  s.users.find? fun u => u.passwordResetToken == some token

/-- The whitelisted-field patch accepted by `UserRepository.update`.
An outer `some` means the field was provided (`!== undefined` in the source);
for the nullable columns the inner `Option` is the stored value. -/
structure UserPatch where
  email : Option String
  name : Option String
  password : Option (Option String)
  passwordResetToken : Option (Option String)
  passwordResetExpires : Option (Option Nat)
deriving DecidableEq, Repr

/-- One field-by-field application of a `UserPatch`, mirroring the spread
`...(data.email && {...})` guards of `UserRepository.update` (`data.email &&`
is JS truthiness: provided and non-empty; the nullable fields use
`!== undefined`). -/
def applyPatch (p : UserPatch) (u : AuthUser) : AuthUser :=
  let u1 := match p.email with
    | some e => if e != "" then { u with email := toLowerCase e } else u
    | none => u
  let u2 := match p.name with
    | some n => if n != "" then { u1 with name := n } else u1
    | none => u1
  let u3 := match p.password with
    | some pw => { u2 with password := pw }
    | none => u2
  let u4 := match p.passwordResetToken with
    | some t => { u3 with passwordResetToken := t }
    | none => u3
  match p.passwordResetExpires with
  | some e => { u4 with passwordResetExpires := e }
  | none => u4

/-- `UserRepository.update`: applies the whitelisted fields to the row with the
given id, returning `none` (and leaving the store unchanged) when no row
matches, as the source's catch-and-return-null does. -/
def update (s : Store) (id : String) (p : UserPatch) : Option AuthUser × Store :=
  match findById s id with
  | none => (none, s)
  | some u =>
    (some (applyPatch p u),
     { s with users := s.users.map fun v => if v.id == id then applyPatch p v else v })

/-- `UserRepository.setPasswordResetToken`: sets the reset token and its
absolute expiry `Date.now() + expiresIn` on the given user. -/
def setPasswordResetToken (s : Store) (userId token : String) (expiresIn now : Nat) :
    Store :=
  { s with users := s.users.map fun u =>
      if u.id == userId then
        { u with passwordResetToken := some token,
                 passwordResetExpires := some (now + expiresIn) }
      else u }

/-- `UserRepository.clearPasswordResetToken`: nulls both reset fields. -/
def clearPasswordResetToken (s : Store) (userId : String) : Store :=
  { s with users := s.users.map fun u =>
      if u.id == userId then
        { u with passwordResetToken := none, passwordResetExpires := none }
      else u }

end UserRepository

namespace RefreshTokenRepository

/-- `RefreshTokenRepository.create`: inserts a row with `revoked: false`. -/
def create (s : Store) (token userId : String) (expiresAt : Nat) : Store :=
  { s with refreshTokens := s.refreshTokens ++
      [{ token := token, userId := userId, expiresAt := expiresAt, revoked := false }] }

/-- `RefreshTokenRepository.findByToken` (`findUnique where token`). -/
def findByToken (s : Store) (token : String) : Option RefreshTokenRow :=
  s.refreshTokens.find? fun r => r.token == token

/-- `RefreshTokenRepository.delete`: removes the row; an absent row is not an
error (the source catches it). -/
def del (s : Store) (token : String) : Store :=
  { s with refreshTokens := s.refreshTokens.filter fun r => r.token != token }

/-- `RefreshTokenRepository.revoke`: marks the row revoked; an absent row is
not an error (the source catches it). -/
def revoke (s : Store) (token : String) : Store :=
  { s with refreshTokens := s.refreshTokens.map fun r =>
      if r.token == token then { r with revoked := true } else r }

/-- `RefreshTokenRepository.revokeAllForUser` (`updateMany where userId`). -/
def revokeAllForUser (s : Store) (userId : String) : Store :=
  { s with refreshTokens := s.refreshTokens.map fun r =>
      if r.userId == userId then { r with revoked := true } else r }

end RefreshTokenRepository

namespace PasswordService

/-- The `{ valid, message? }` result of `validatePasswordStrength`. -/
structure StrengthResult where
  valid : Bool
  message : Option String
deriving DecidableEq, Repr

/-- `PasswordService.validatePasswordStrength`: length ≥ 8, then one uppercase
letter, one lowercase letter, one digit, reporting the first failing rule. -/
def validatePasswordStrength (password : String) : StrengthResult :=
  if password.data.length < 8 then
    { valid := false, message := some "Password must be at least 8 characters long" }
  else if !(password.data.any fun c => c.isUpper) then
    { valid := false, message := some "Password must contain at least one uppercase letter" }
  else if !(password.data.any fun c => c.isLower) then
    { valid := false, message := some "Password must contain at least one lowercase letter" }
  else if !(password.data.any fun c => c.isDigit) then
    { valid := false, message := some "Password must contain at least one number" }
  else
    { valid := true, message := none }

end PasswordService

/-- The bcrypt `hash`/`compare` pair of `PasswordService`, kept abstract: the
hash output embeds a random salt and the comparison is the bcrypt check.  All
theorems hold for an arbitrary hasher. -/
structure PasswordHasher where
  hash : String → String
  compare : String → String → Bool

namespace TokenService

/-- `accessTokenExpiresIn = 15 * 60` seconds. -/
def accessTokenExpiresIn : Nat := 15 * 60

/-- `refreshTokenExpiresIn = 7 * 24 * 60 * 60` seconds. -/
def refreshTokenExpiresIn : Nat := 7 * 24 * 60 * 60

/-- `TokenPayload` signed into the access token. -/
structure TokenPayload where
  sub : String
  email : String
  name : String
  provider : String
deriving DecidableEq, Repr

/-- The `TokenPair` returned by `generateTokenPair`; the signed JWT access
token is represented by its payload (signing is external crypto). -/
structure TokenPair where
  accessPayload : TokenPayload
  refreshToken : String
  expiresIn : Nat
deriving DecidableEq, Repr

/-- `TokenService.generateTokenPair`: signs the access token and persists a
fresh random refresh token (`freshToken`, uuidv4 in the source) expiring at
`Date.now() + refreshTokenExpiresIn * 1000`. -/
def generateTokenPair (s : Store) (payload : TokenPayload) (freshToken : String)
    (now : Nat) : TokenPair × Store :=
  let s2 := RefreshTokenRepository.create s freshToken payload.sub
      (now + refreshTokenExpiresIn * 1000)
  ({ accessPayload := payload, refreshToken := freshToken,
     expiresIn := accessTokenExpiresIn }, s2)

/-- `TokenService.validateRefreshToken`: `null` if absent; if expired, delete
the row and return `null`; if revoked, return `null` without deleting;
otherwise the owning user id.  Returns the store because of the lazy delete. -/
def validateRefreshToken (s : Store) (token : String) (now : Nat) :
    Option String × Store :=
  match RefreshTokenRepository.findByToken s token with
  | none => (none, s)
  | some storedToken =>
    if storedToken.expiresAt < now then
      (none, RefreshTokenRepository.del s token)
    else if storedToken.revoked then
      (none, s)
    else
      (some storedToken.userId, s)

/-- `TokenService.revokeRefreshToken`. -/
def revokeRefreshToken (s : Store) (token : String) : Store :=
  RefreshTokenRepository.revoke s token

/-- `TokenService.revokeAllUserTokens`. -/
def revokeAllUserTokens (s : Store) (userId : String) : Store :=
  RefreshTokenRepository.revokeAllForUser s userId

end TokenService

/-- A RabbitMQ event emitted by `AuthService`, with the payload fields the
spec's claims refer to (ISO-timestamp-only fields are elided). -/
inductive AuthEvent where
  | userRegistered (id email name provider : String) (createdAt : Nat)
  | userLoggedIn (id email provider : String)
  | passwordResetRequested (userId email token : String) (expiresAt : Nat)
  | passwordResetCompleted (userId email : String)
  | passwordChanged (userId email : String)
deriving DecidableEq, Repr

/-- An `RpcException(message)` thrown by the service. -/
inductive AuthErr where
  | rpcException (message : String)
deriving DecidableEq, Repr

namespace AuthService

/-- The `UserInfo` record built by `AuthService.toUserInfo`. -/
structure UserInfo where
  id : String
  email : String
  name : String
  provider : String
  createdAt : Nat
deriving DecidableEq, Repr

/-- The `AuthResponse` returned by successful auth operations; the JWT access
token is represented by its signed payload. -/
structure AuthResponse where
  accessPayload : TokenService.TokenPayload
  refreshToken : String
  user : UserInfo
  expiresIn : Nat
deriving DecidableEq, Repr

/-- `ForgotPasswordResponse` / `ResetPasswordResponse` / `ChangePasswordResponse`
all share this `{ success, message }` shape. -/
structure SuccessResponse where
  success : Bool
  message : String
deriving DecidableEq, Repr

/-- The result of one orchestrator call: the `Except` outcome (an
`RpcException` or the response), the store after the call — writes made
before a throw persist — and the events emitted, in order. -/
abbrev OpResult (α : Type) := Except AuthErr α × Store × List AuthEvent

/-- `passwordResetExpiresIn = 60 * 60 * 1000` ms (1 hour). -/
def passwordResetExpiresIn : Nat := 60 * 60 * 1000

/-- `AuthService.toUserInfo`. -/
def toUserInfo (u : AuthUser) : UserInfo :=
  { id := u.id, email := u.email, name := u.name, provider := u.provider,
    createdAt := u.createdAt }

/-- `AuthService.generateAuthResponse`: builds the token payload from the user
and delegates to `TokenService.generateTokenPair`. -/
def generateAuthResponse (s : Store) (u : AuthUser) (freshRt : String) (now : Nat) :
    AuthResponse × Store :=
  let payload : TokenService.TokenPayload :=
    { sub := u.id, email := u.email, name := u.name, provider := u.provider }
  let ts := TokenService.generateTokenPair s payload freshRt now
  ({ accessPayload := ts.1.accessPayload, refreshToken := ts.1.refreshToken,
     user := toUserInfo u, expiresIn := ts.1.expiresIn }, ts.2)

/-- `AuthService.register`. -/
def register (h : PasswordHasher) (s : Store) (email name password : String)
    (freshId freshRt : String) (now : Nat) : OpResult AuthResponse :=
  match UserRepository.findByEmail s email with
  | some _ => (.error (.rpcException "User with this email already exists"), s, [])
  | none =>
    let v := PasswordService.validatePasswordStrength password
    if !v.valid then
      (.error (.rpcException (v.message.getD "Invalid password")), s, [])
    else
      let hashedPassword := h.hash password
      let cr := UserRepository.create s freshId now
        { email := email, name := name, password := some hashedPassword,
          provider := "email", providerId := none }
      let user := cr.1
      let gr := generateAuthResponse cr.2 user freshRt now
      (.ok gr.1, gr.2,
       [.userRegistered user.id user.email user.name user.provider user.createdAt])

/-- `AuthService.login`. -/
def login (h : PasswordHasher) (s : Store) (email password : String)
    (freshRt : String) (now : Nat) : OpResult AuthResponse :=
  match UserRepository.findByEmail s email with
  | none => (.error (.rpcException "Invalid email or password"), s, [])
  | some user =>
    if user.provider != "email" || user.password == none then
      (.error (.rpcException ("Please sign in with " ++ user.provider)), s, [])
    else if !(h.compare password (user.password.getD "")) then
      (.error (.rpcException "Invalid email or password"), s, [])
    else
      let gr := generateAuthResponse s user freshRt now
      (.ok gr.1, gr.2, [.userLoggedIn user.id user.email user.provider])

/-- The verified-Google-token payload returned by `GoogleAuthService.verifyIdToken`. -/
structure GoogleUser where
  id : String
  email : String
  name : String
  emailVerified : Bool
deriving DecidableEq, Repr

/-- `AuthService.googleAuth`.  The external verifier's result for the supplied
id token is the `verified` argument (`none` = verification failed). -/
def googleAuth (s : Store) (verified : Option GoogleUser)
    (freshId freshRt : String) (now : Nat) : OpResult AuthResponse :=
  match verified with
  | none => (.error (.rpcException "Invalid Google token"), s, [])
  | some googleUser =>
    if !googleUser.emailVerified then
      (.error (.rpcException "Google email not verified"), s, [])
    else
      match UserRepository.findByProvider s "google" googleUser.id with
      | some user =>
        let gr := generateAuthResponse s user freshRt now
        (.ok gr.1, gr.2, [.userLoggedIn user.id user.email user.provider])
      | none =>
        match UserRepository.findByEmail s googleUser.email with
        | some _ =>
          (.error (.rpcException "An account with this email already exists. Please sign in with your original method."), s, [])
        | none =>
          let cr := UserRepository.create s freshId now
            { email := googleUser.email, name := googleUser.name,
              password := none, provider := "google", providerId := some googleUser.id }
          let user := cr.1
          let gr := generateAuthResponse cr.2 user freshRt now
          (.ok gr.1, gr.2,
           [.userRegistered user.id user.email user.name user.provider user.createdAt,
            .userLoggedIn user.id user.email user.provider])

/-- The verified-Apple-token payload returned by
`AppleAuthService.verifyIdentityToken`; an absent or empty (JS-falsy) email is
modelled as `none`. -/
structure AppleUser where
  id : String
  email : Option String
deriving DecidableEq, Repr

/-- `AuthService.appleAuth`.  `firstName`/`lastName` are the request's proto
string fields (`""` = not supplied, JS-falsy). -/
def appleAuth (s : Store) (verified : Option AppleUser)
    (firstName lastName : String) (freshId freshRt : String) (now : Nat) :
    OpResult AuthResponse :=
  match verified with
  | none => (.error (.rpcException "Invalid Apple token"), s, [])
  | some appleUser =>
    match UserRepository.findByProvider s "apple" appleUser.id with
    | some user =>
      let gr := generateAuthResponse s user freshRt now
      (.ok gr.1, gr.2, [.userLoggedIn user.id user.email user.provider])
    | none =>
      let conflict := match appleUser.email with
        | some e => (UserRepository.findByEmail s e).isSome
        | none => false
      if conflict then
        (.error (.rpcException "An account with this email already exists. Please sign in with your original method."), s, [])
      else
        let name := if firstName != "" && lastName != "" then
            firstName ++ " " ++ lastName
          else
            match appleUser.email with
            | some e =>
              let local_ := (e.splitOn "@").headD ""
              if local_ != "" then local_ else "Apple User"
            | none => "Apple User"
        let email := match appleUser.email with
          | some e => e
          | none => appleUser.id ++ "@privaterelay.appleid.com"
        let cr := UserRepository.create s freshId now
          { email := email, name := name, password := none,
            provider := "apple", providerId := some appleUser.id }
        let user := cr.1
        let gr := generateAuthResponse cr.2 user freshRt now
        (.ok gr.1, gr.2,
         [.userRegistered user.id user.email user.name user.provider user.createdAt,
          .userLoggedIn user.id user.email user.provider])

/-- The second half of `AuthService.refreshToken`, after
`validateRefreshToken` has returned a user id: look the user up, revoke the
presented token, issue a fresh pair.  Split out because it is a separate
store round-trip from the validation read (the interleaving analysis of the
concurrency claim needs the two phases). -/
def refreshFinish (s : Store) (token freshRt : String) (now : Nat)
    (userId : String) : OpResult AuthResponse :=
  match UserRepository.findById s userId with
  | none => (.error (.rpcException "User not found"), s, [])
  | some user =>
    let s2 := TokenService.revokeRefreshToken s token
    let gr := generateAuthResponse s2 user freshRt now
    (.ok gr.1, gr.2, [])

/-- `AuthService.refreshToken`: validate (first store round-trip), then the
revoke-and-reissue phase. -/
def refreshToken (s : Store) (token freshRt : String) (now : Nat) :
    OpResult AuthResponse :=
  let vr := TokenService.validateRefreshToken s token now
  match vr.1 with
  | none => (.error (.rpcException "Invalid or expired refresh token"), vr.2, [])
  | some userId => refreshFinish vr.2 token freshRt now userId

/-- The enumeration-resistant message `forgotPassword` always returns. -/
def forgotPasswordMessage : String :=
  "If an account exists with this email, a password reset link will be sent."

/-- `AuthService.forgotPassword`.  `freshResetToken` is the uuidv4 produced by
`TokenService.generatePasswordResetToken`. -/
def forgotPassword (s : Store) (email freshResetToken : String) (now : Nat) :
    OpResult SuccessResponse :=
  match UserRepository.findByEmail s email with
  | none => (.ok { success := true, message := forgotPasswordMessage }, s, [])
  | some user =>
    if user.provider != "email" then
      (.ok { success := true, message := forgotPasswordMessage }, s, [])
    else
      let s2 := UserRepository.setPasswordResetToken s user.id freshResetToken
          passwordResetExpiresIn now
      (.ok { success := true, message := forgotPasswordMessage }, s2,
       [.passwordResetRequested user.id user.email freshResetToken
          (now + passwordResetExpiresIn)])

/-- `AuthService.resetPassword`. -/
def resetPassword (h : PasswordHasher) (s : Store) (token newPassword : String)
    (now : Nat) : OpResult SuccessResponse :=
  match UserRepository.findByPasswordResetToken s token with
  | none => (.error (.rpcException "Invalid or expired password reset token"), s, [])
  | some user =>
    match user.passwordResetExpires with
    | none => (.error (.rpcException "Invalid or expired password reset token"), s, [])
    | some expiry =>
      if expiry < now then
        (.error (.rpcException "Invalid or expired password reset token"), s, [])
      else
        let v := PasswordService.validatePasswordStrength newPassword
        if !v.valid then
          (.error (.rpcException (v.message.getD "Invalid password")), s, [])
        else
          let hashedPassword := h.hash newPassword
          let up := UserRepository.update s user.id
            { email := none, name := none, password := some (some hashedPassword),
              passwordResetToken := none, passwordResetExpires := none }
          let s3 := UserRepository.clearPasswordResetToken up.2 user.id
          let s4 := TokenService.revokeAllUserTokens s3 user.id
          (.ok { success := true, message := "Password has been reset successfully" }, s4,
           [.passwordResetCompleted user.id user.email])

/-- `AuthService.changePassword`. -/
def changePassword (h : PasswordHasher) (s : Store)
    (userId currentPassword newPassword : String) : OpResult SuccessResponse :=
  match UserRepository.findById s userId with
  | none => (.error (.rpcException "User not found"), s, [])
  | some user =>
    if user.provider != "email" || user.password == none then
      (.error (.rpcException "Password change not available for OAuth users"), s, [])
    else if !(h.compare currentPassword (user.password.getD "")) then
      (.error (.rpcException "Current password is incorrect"), s, [])
    else
      let v := PasswordService.validatePasswordStrength newPassword
      if !v.valid then
        (.error (.rpcException (v.message.getD "Invalid password")), s, [])
      else
        let hashedPassword := h.hash newPassword
        let up := UserRepository.update s user.id
          { email := none, name := none, password := some (some hashedPassword),
            passwordResetToken := none, passwordResetExpires := none }
        (.ok { success := true, message := "Password has been changed successfully" }, up.2,
         [.passwordChanged user.id user.email])

end AuthService

deriving instance DecidableEq for Except

/-- A user returned by `findById` carries the id it was looked up by. -/
theorem UserRepository.findById_id {s : Store} {uid : String} {u : AuthUser}
    (h : UserRepository.findById s uid = some u) : u.id = uid := by
  unfold UserRepository.findById at h
  have hb := List.find?_some h
  simp only [] at hb
  exact eq_of_beq hb

/-- A row returned by `findByToken` carries the token it was looked up by. -/
theorem RefreshTokenRepository.findByToken_token {s : Store} {t : String}
    {row : RefreshTokenRow} (h : RefreshTokenRepository.findByToken s t = some row) :
    row.token = t := by
  unfold RefreshTokenRepository.findByToken at h
  have hb := List.find?_some h
  simp only [] at hb
  exact eq_of_beq hb

/-- When the stored token strings are pairwise distinct, looking a member row's
token up finds exactly that row. -/
theorem find?_token_of_nodup {l : List RefreshTokenRow}
    (hnd : (l.map fun r => r.token).Nodup) {rt : RefreshTokenRow} (hmem : rt ∈ l) :
    l.find? (fun r => r.token == rt.token) = some rt := by
  induction l with
  | nil => cases hmem
  | cons a l ih =>
    rw [List.map_cons, List.nodup_cons] at hnd
    rcases List.mem_cons.mp hmem with rfl | hmem
    · exact List.find?_cons_of_pos _ (by simp)
    · have hne : a.token ≠ rt.token := fun he =>
        hnd.1 (he ▸ List.mem_map_of_mem (fun r => r.token) hmem)
      rw [List.find?_cons_of_neg _ (by simp [hne]), ih hnd.2 hmem]

/-- Inversion for a successful `validateRefreshToken`: the store is untouched
and the row is present, unexpired and unrevoked. -/
theorem TokenService.validateRefreshToken_some {s : Store} {t : String} {now : Nat}
    {uid : String} {s1 : Store}
    (h : TokenService.validateRefreshToken s t now = (some uid, s1)) :
    s1 = s ∧ ∃ row, RefreshTokenRepository.findByToken s t = some row ∧
      row.userId = uid ∧ ¬ row.expiresAt < now ∧ row.revoked = false := by
  unfold TokenService.validateRefreshToken at h
  cases hf : RefreshTokenRepository.findByToken s t with
  | none => rw [hf] at h; simp at h
  | some row =>
    rw [hf] at h
    by_cases he : row.expiresAt < now
    · simp [he] at h
    · by_cases hr : row.revoked
      · simp [he, hr] at h
      · simp [he, hr] at h
        exact ⟨h.2.symm, row, rfl, h.1, he, by simp [hr]⟩

/-- `generateAuthResponse` fully unfolded: the response carries the fresh
refresh token and the user's info, and the store gains exactly one unrevoked
refresh-token row for that user with the 7-day expiry. -/
theorem AuthService.generateAuthResponse_eq (s : Store) (u : AuthUser)
    (f : String) (now : Nat) :
    AuthService.generateAuthResponse s u f now =
      (⟨⟨u.id, u.email, u.name, u.provider⟩, f, AuthService.toUserInfo u,
          TokenService.accessTokenExpiresIn⟩,
       ⟨s.users, s.refreshTokens ++
          [⟨f, u.id, now + TokenService.refreshTokenExpiresIn * 1000, false⟩]⟩) := rfl

/-- C5: `validateRefreshToken(token)` returns null when the token is absent
from the store; when the stored token's expiry has passed it deletes the token
from the store and returns null; when the stored token is revoked it returns
null without deleting the row; otherwise it returns the owning account id. -/
theorem C5_validateRefreshToken_cases (s : Store) (t : String) (now : Nat) :
    (RefreshTokenRepository.findByToken s t = none →
      TokenService.validateRefreshToken s t now = (none, s)) ∧
    (∀ row, RefreshTokenRepository.findByToken s t = some row →
      (row.expiresAt < now →
        TokenService.validateRefreshToken s t now =
          (none, RefreshTokenRepository.del s t)) ∧
      (¬ row.expiresAt < now → row.revoked = true →
        TokenService.validateRefreshToken s t now = (none, s)) ∧
      (¬ row.expiresAt < now → row.revoked = false →
        TokenService.validateRefreshToken s t now = (some row.userId, s))) := by
  constructor
  · intro h
    simp [TokenService.validateRefreshToken, h]
  · intro row h
    refine ⟨fun hexp => ?_, fun hnexp hrev => ?_, fun hnexp hrev => ?_⟩
    · simp [TokenService.validateRefreshToken, h, hexp]
    · simp [TokenService.validateRefreshToken, h, hnexp, hrev]
    · simp [TokenService.validateRefreshToken, h, hnexp, hrev]

/-- A user with an unexpired, revoked refresh token, for the C5 witness. -/
def c5Row : RefreshTokenRow :=
  { token := "t1", userId := "u1", expiresAt := 1000, revoked := true }

/-- A one-row token store, for the C5 witness. -/
def c5Store : Store := { users := [], refreshTokens := [c5Row] }

/-- C5 witness: the revoked case evaluated on a concrete store. -/
theorem C5_witness :
    RefreshTokenRepository.findByToken c5Store "t1" = some c5Row ∧
    TokenService.validateRefreshToken c5Store "t1" 500 = (none, c5Store) :=
  ⟨by decide,
   ((C5_validateRefreshToken_cases c5Store "t1" 500).2 c5Row (by decide)).2.1
     (by decide) (by decide)⟩

/-- C6: `ForgotPassword(email)` returns success for every input email; only
when an account with that email exists and its provider is password does it
generate a reset token, persist it on the account with a 1-hour expiry, and
emit a `PasswordResetRequested` event carrying the raw token — for an unknown
email or a non-password-provider account it performs no store write and emits
no event. -/
theorem C6_forgotPassword (s : Store) (email fresh : String) (now : Nat) :
    (AuthService.forgotPassword s email fresh now).1 =
      .ok ⟨true, AuthService.forgotPasswordMessage⟩ ∧
    (UserRepository.findByEmail s email = none →
      AuthService.forgotPassword s email fresh now =
        (.ok ⟨true, AuthService.forgotPasswordMessage⟩, s, [])) ∧
    (∀ u, UserRepository.findByEmail s email = some u → u.provider ≠ "email" →
      AuthService.forgotPassword s email fresh now =
        (.ok ⟨true, AuthService.forgotPasswordMessage⟩, s, [])) ∧
    (∀ u, UserRepository.findByEmail s email = some u → u.provider = "email" →
      AuthService.forgotPassword s email fresh now =
        (.ok ⟨true, AuthService.forgotPasswordMessage⟩,
         UserRepository.setPasswordResetToken s u.id fresh
           AuthService.passwordResetExpiresIn now,
         [.passwordResetRequested u.id u.email fresh
            (now + AuthService.passwordResetExpiresIn)])) := by
  refine ⟨?_, fun h => ?_, fun u h hp => ?_, fun u h hp => ?_⟩
  · cases h : UserRepository.findByEmail s email with
    | none => simp [AuthService.forgotPassword, h]
    | some u =>
      by_cases hp : u.provider = "email" <;>
        simp [AuthService.forgotPassword, h, hp, bne_iff_ne]
  · simp [AuthService.forgotPassword, h]
  · simp [AuthService.forgotPassword, h, bne_iff_ne, hp]
  · simp [AuthService.forgotPassword, h, hp]

/-- A password-provider account holding a stored bcrypt hash, shared by the
concrete witnesses. -/
def wUser : AuthUser :=
  { id := "u1", email := "a@x.com", name := "A", password := some "hashed-Secret1A",
    provider := "email", providerId := none, passwordResetToken := none,
    passwordResetExpires := none, createdAt := 10 }

/-- A store holding just `wUser` and one of their refresh tokens. -/
def wStore : Store :=
  { users := [wUser],
    refreshTokens := [{ token := "rt1", userId := "u1", expiresAt := 5000, revoked := false }] }

/-- A concrete stand-in for bcrypt used by the witnesses: `hash` prepends a
tag and `compare` re-hashes and compares. -/
def wHasher : PasswordHasher :=
  { hash := fun p => "hashed-" ++ p, compare := fun p hp => ("hashed-" ++ p) == hp }

/-- C6 witness: the password-provider case evaluated on a concrete store. -/
theorem C6_witness :
    UserRepository.findByEmail wStore "a@x.com" = some wUser ∧
    AuthService.forgotPassword wStore "a@x.com" "reset-1" 100 =
      (.ok ⟨true, AuthService.forgotPasswordMessage⟩,
       UserRepository.setPasswordResetToken wStore wUser.id "reset-1"
         AuthService.passwordResetExpiresIn 100,
       [.passwordResetRequested wUser.id wUser.email "reset-1"
          (100 + AuthService.passwordResetExpiresIn)]) :=
  ⟨by decide,
   (C6_forgotPassword wStore "a@x.com" "reset-1" 100).2.2.2 wUser (by decide) (by decide)⟩

/-- C3: for every store state and every pair of Login inputs where one email
is unknown and the other belongs to a password-provider account but the
supplied password is wrong, the two Login calls fail with the same error
value/message (`InvalidCredentials` both times), leaving the store untouched
and emitting nothing. -/
theorem C3_login_same_error (h : PasswordHasher) (s : Store)
    (e1 p1 e2 p2 f1 f2 : String) (n1 n2 : Nat)
    (h1 : UserRepository.findByEmail s e1 = none)
    (u : AuthUser) (h2 : UserRepository.findByEmail s e2 = some u)
    (hprov : u.provider = "email") (hpw : String) (hpass : u.password = some hpw)
    (hcmp : h.compare p2 hpw = false) :
    AuthService.login h s e1 p1 f1 n1 =
      (.error (.rpcException "Invalid email or password"), s, []) ∧
    AuthService.login h s e2 p2 f2 n2 =
      (.error (.rpcException "Invalid email or password"), s, []) ∧
    AuthService.login h s e1 p1 f1 n1 = AuthService.login h s e2 p2 f2 n2 := by
  have g1 : AuthService.login h s e1 p1 f1 n1 =
      (.error (.rpcException "Invalid email or password"), s, []) := by
    simp [AuthService.login, h1]
  have g2 : AuthService.login h s e2 p2 f2 n2 =
      (.error (.rpcException "Invalid email or password"), s, []) := by
    simp [AuthService.login, h2, hprov, hpass, hcmp]
  exact ⟨g1, g2, g1.trans g2.symm⟩

/-- C3 witness: unknown email vs. wrong password on a concrete store. -/
theorem C3_witness :
    UserRepository.findByEmail wStore "nobody@x.com" = none ∧
    UserRepository.findByEmail wStore "a@x.com" = some wUser ∧
    wHasher.compare "WrongPw9" "hashed-Secret1A" = false ∧
    AuthService.login wHasher wStore "nobody@x.com" "x" "f1" 1 =
      (.error (.rpcException "Invalid email or password"), wStore, []) ∧
    AuthService.login wHasher wStore "a@x.com" "WrongPw9" "f2" 2 =
      (.error (.rpcException "Invalid email or password"), wStore, []) :=
  ⟨by decide, by decide, by decide,
   (C3_login_same_error wHasher wStore "nobody@x.com" "x" "a@x.com" "WrongPw9"
      "f1" "f2" 1 2 (by decide) wUser (by decide) (by decide) "hashed-Secret1A"
      (by decide) (by decide)).1,
   (C3_login_same_error wHasher wStore "nobody@x.com" "x" "a@x.com" "WrongPw9"
      "f1" "f2" 1 2 (by decide) wUser (by decide) (by decide) "hashed-Secret1A"
      (by decide) (by decide)).2.1⟩

/-- A federated (Google) account, for the C4 counterexample. -/
def c4User : AuthUser :=
  { id := "u2", email := "g@x.com", name := "G", password := none,
    provider := "google", providerId := some "gid-1", passwordResetToken := none,
    passwordResetExpires := none, createdAt := 0 }

/-- A store holding just the federated account. -/
def c4Store : Store := { users := [c4User], refreshTokens := [] }

/-- C4 counterexample: Login with an unregistered email and Login with the
email of an existing non-password-provider account return different
responses — `Invalid email or password` vs. `Please sign in with google` —
so the response does reveal that the second account exists. -/
theorem C4_counterexample :
    AuthService.login wHasher c4Store "nobody@x.com" "pw" "f" 0 ≠
      AuthService.login wHasher c4Store "g@x.com" "pw" "f" 0 ∧
    AuthService.login wHasher c4Store "nobody@x.com" "pw" "f" 0 =
      (.error (.rpcException "Invalid email or password"), c4Store, []) ∧
    AuthService.login wHasher c4Store "g@x.com" "pw" "f" 0 =
      (.error (.rpcException "Please sign in with google"), c4Store, []) := by
  refine ⟨?_, by decide, by decide⟩
  decide

/-- C4 amended: for every pair of Login inputs where one email is
unregistered and the other belongs to an existing account whose provider is
not password, the two calls return different error messages: the first fails
with the generic `InvalidCredentials` error while the second fails with
`WrongProvider`, naming the account's provider — the response reveals that
the second account exists. -/
theorem C4_amended_login_reveals_provider (h : PasswordHasher) (s : Store)
    (e1 p1 e2 p2 f1 f2 : String) (n1 n2 : Nat)
    (h1 : UserRepository.findByEmail s e1 = none)
    (u : AuthUser) (h2 : UserRepository.findByEmail s e2 = some u)
    (hprov : u.provider ≠ "email") :
    AuthService.login h s e1 p1 f1 n1 =
      (.error (.rpcException "Invalid email or password"), s, []) ∧
    AuthService.login h s e2 p2 f2 n2 =
      (.error (.rpcException ("Please sign in with " ++ u.provider)), s, []) := by
  constructor
  · simp [AuthService.login, h1]
  · simp [AuthService.login, h2, bne_iff_ne, hprov]

/-- C4 witness: the amended statement evaluated on the counterexample store. -/
theorem C4_amended_witness :
    UserRepository.findByEmail c4Store "nobody@x.com" = none ∧
    UserRepository.findByEmail c4Store "g@x.com" = some c4User ∧
    AuthService.login wHasher c4Store "nobody@x.com" "pw" "f" 0 =
      (.error (.rpcException "Invalid email or password"), c4Store, []) ∧
    AuthService.login wHasher c4Store "g@x.com" "pw" "f" 0 =
      (.error (.rpcException ("Please sign in with " ++ c4User.provider)), c4Store, []) :=
  ⟨by decide, by decide,
   (C4_amended_login_reveals_provider wHasher c4Store "nobody@x.com" "pw" "g@x.com"
      "pw" "f" "f" 0 0 (by decide) c4User (by decide) (by decide)).1,
   (C4_amended_login_reveals_provider wHasher c4Store "nobody@x.com" "pw" "g@x.com"
      "pw" "f" "f" 0 0 (by decide) c4User (by decide) (by decide)).2⟩

/-- C10: if `RefreshToken` is called with a stored, unexpired, unrevoked token
whose owning account id no longer resolves to an account, the operation fails
with a `User not found` error distinct from `InvalidRefreshToken`, and it
neither revokes nor deletes the presented token (the store is returned
unchanged), so the same token still validates when presented again. -/
theorem C10_refresh_user_missing (s : Store) (t f : String) (now : Nat)
    (row : RefreshTokenRow)
    (hfind : RefreshTokenRepository.findByToken s t = some row)
    (hexp : ¬ row.expiresAt < now) (hrev : row.revoked = false)
    (huser : UserRepository.findById s row.userId = none) :
    AuthService.refreshToken s t f now =
      (.error (.rpcException "User not found"), s, []) ∧
    AuthErr.rpcException "User not found" ≠
      AuthErr.rpcException "Invalid or expired refresh token" ∧
    (TokenService.validateRefreshToken s t now).1 = some row.userId := by
  have hval : TokenService.validateRefreshToken s t now = (some row.userId, s) := by
    simp [TokenService.validateRefreshToken, hfind, hexp, hrev]
  refine ⟨?_, by simp, by rw [hval]⟩
  simp [AuthService.refreshToken, hval, AuthService.refreshFinish, huser]

/-- A store with a live refresh token whose owner row is gone, for the C10
witness. -/
def c10Store : Store :=
  { users := [],
    refreshTokens := [{ token := "orphan", userId := "ghost", expiresAt := 900, revoked := false }] }

/-- C10 witness: the orphaned-token path evaluated on a concrete store. -/
theorem C10_witness :
    RefreshTokenRepository.findByToken c10Store "orphan" =
      some { token := "orphan", userId := "ghost", expiresAt := 900, revoked := false } ∧
    AuthService.refreshToken c10Store "orphan" "f" 100 =
      (.error (.rpcException "User not found"), c10Store, []) :=
  ⟨by decide,
   (C10_refresh_user_missing c10Store "orphan" "f" 100
      { token := "orphan", userId := "ghost", expiresAt := 900, revoked := false }
      (by decide) (by decide) (by decide) (by decide)).1⟩

/-- Whether an `Except` outcome is a success. -/
def exceptIsOk {α : Type} : Except AuthErr α → Bool
  | .ok _ => true
  | .error _ => false

/-- The account and live token used to exhibit the refresh race. -/
def c9Store : Store :=
  { users := [wUser],
    refreshTokens := [{ token := "T", userId := "u1", expiresAt := 1000000, revoked := false }] }

/-- C9: the claim's required atomicity does not hold — `refreshToken` performs
its validation read and its revoke-and-reissue as two separate store
round-trips, so when two requests A and B presenting the same token T both
run `validateRefreshToken` before either runs the revoke phase, both observe
T as valid (first conjunct, the same unchanged store serves both reads) and
then both revoke-and-reissue phases succeed (second and third conjuncts: B's
finish runs on the store A's finish produced and still mints a fresh pair),
i.e. the replayed token mints twice. -/
theorem C9_rotation_race_window :
    TokenService.validateRefreshToken c9Store "T" 100 = (some "u1", c9Store) ∧
    exceptIsOk (AuthService.refreshFinish c9Store "T" "fA" 100 "u1").1 = true ∧
    exceptIsOk (AuthService.refreshFinish
      (AuthService.refreshFinish c9Store "T" "fA" 100 "u1").2.1 "T" "fB" 100 "u1").1 = true := by
  refine ⟨by decide, by decide, by decide⟩

/-- Updating only the `password` field through `UserRepository.update` leaves
every other column of every row unchanged and does not touch the
refresh-token table. -/
theorem UserRepository.update_password_eq (s : Store) (u : AuthUser) (hp : String)
    (hfind : UserRepository.findById s u.id = some u) :
    (UserRepository.update s u.id ⟨none, none, some (some hp), none, none⟩).2 =
      { s with users := s.users.map fun v =>
          if v.id == u.id then { v with password := some hp } else v } := by
  rw [UserRepository.update, hfind]
  simp only [UserRepository.applyPatch]

/-- C8: on a successful `ChangePassword` the account's password hash is
updated but no refresh token is revoked or deleted — the refresh-token store
is unchanged (unlike `ResetPassword`) — and every other field of every user
row (email, name, provider, reset-token fields) is unchanged: the user table
afterwards is exactly the old table with only the target row's `password`
replaced. -/
theorem C8_changePassword_frame (h : PasswordHasher) (s : Store)
    (uid cur newPw : String) (resp : AuthService.SuccessResponse) (s' : Store)
    (ev : List AuthEvent)
    (hok : AuthService.changePassword h s uid cur newPw = (.ok resp, s', ev)) :
    s'.refreshTokens = s.refreshTokens ∧
    ∃ u, UserRepository.findById s uid = some u ∧
      s'.users = s.users.map (fun v =>
        if v.id == uid then { v with password := some (h.hash newPw) } else v) ∧
      ev = [.passwordChanged u.id u.email] := by
  cases hfind : UserRepository.findById s uid with
  | none =>
    rw [AuthService.changePassword, hfind] at hok
    simp at hok
  | some u =>
    have huid : u.id = uid := UserRepository.findById_id hfind
    have hfind' : UserRepository.findById s u.id = some u := by rw [huid]; exact hfind
    by_cases hguard : (u.provider != "email" || u.password == none) = true
    · rw [AuthService.changePassword, hfind] at hok
      simp [hguard] at hok
    · simp only [Bool.not_eq_true] at hguard
      by_cases hcmp : h.compare cur (u.password.getD "") = true
      · by_cases hv : (PasswordService.validatePasswordStrength newPw).valid = true
        · have hres : AuthService.changePassword h s uid cur newPw =
              (.ok ⟨true, "Password has been changed successfully"⟩,
               (UserRepository.update s u.id
                 ⟨none, none, some (some (h.hash newPw)), none, none⟩).2,
               [.passwordChanged u.id u.email]) := by
            rw [AuthService.changePassword, hfind]
            simp [hguard, hcmp, hv]
          rw [hres, UserRepository.update_password_eq s u (h.hash newPw) hfind'] at hok
          simp only [Prod.mk.injEq, Except.ok.injEq] at hok
          obtain ⟨hr, hs, he⟩ := hok
          subst hs he
          refine ⟨rfl, u, rfl, ?_, rfl⟩
          rw [huid]
        · rw [AuthService.changePassword, hfind] at hok
          simp [hguard, hcmp, hv] at hok
      · rw [AuthService.changePassword, hfind] at hok
        simp [hguard, hcmp] at hok

/-- The store after the C8 witness call: only `wUser`'s password hash changed. -/
def c8StoreAfter : Store :=
  { users := [{ wUser with password := some "hashed-NewSecret2B" }],
    refreshTokens := wStore.refreshTokens }

/-- C8 witness: a concrete successful password change, with the frame
conclusion instantiated. -/
theorem C8_witness :
    AuthService.changePassword wHasher wStore "u1" "Secret1A" "NewSecret2B" =
      (.ok ⟨true, "Password has been changed successfully"⟩, c8StoreAfter,
       [.passwordChanged "u1" "a@x.com"]) ∧
    (c8StoreAfter.refreshTokens = wStore.refreshTokens ∧
     ∃ u, UserRepository.findById wStore "u1" = some u ∧
       c8StoreAfter.users = wStore.users.map (fun v =>
         if v.id == "u1" then { v with password := some (wHasher.hash "NewSecret2B") } else v) ∧
       [AuthEvent.passwordChanged "u1" "a@x.com"] = [.passwordChanged u.id u.email]) :=
  ⟨by decide,
   C8_changePassword_frame wHasher wStore "u1" "Secret1A" "NewSecret2B"
     ⟨true, "Password has been changed successfully"⟩ c8StoreAfter
     [.passwordChanged "u1" "a@x.com"] (by decide)⟩

/-- Searching by token commutes with a token-preserving row transformation. -/
theorem find?_map_token_preserving (l : List RefreshTokenRow)
    (g : RefreshTokenRow → RefreshTokenRow) (hg : ∀ r, (g r).token = r.token)
    (t : String) :
    (l.map g).find? (fun r => r.token == t) = (l.find? fun r => r.token == t).map g := by
  rw [List.find?_map]
  have hp : ((fun r : RefreshTokenRow => r.token == t) ∘ g) =
      (fun r : RefreshTokenRow => r.token == t) := by
    funext r
    simp [Function.comp_apply, hg r]
  rw [hp]

/-- A token found revoked never validates, at any time. -/
theorem validateRefreshToken_fst_of_revoked {s : Store} {t : String}
    {row : RefreshTokenRow}
    (hfind : RefreshTokenRepository.findByToken s t = some row)
    (hrev : row.revoked = true) (now : Nat) :
    (TokenService.validateRefreshToken s t now).1 = none := by
  unfold TokenService.validateRefreshToken
  rw [hfind]
  by_cases he : row.expiresAt < now <;> simp [he, hrev]

/-- The successful `resetPassword` path, fully evaluated: new hash stored,
reset fields cleared, every token row of the account marked revoked. -/
theorem resetPassword_success_eq (h : PasswordHasher) (s : Store)
    (token newPw : String) (now : Nat) (u : AuthUser) (expiry : Nat) (w : AuthUser)
    (hfind : UserRepository.findByPasswordResetToken s token = some u)
    (hexp : u.passwordResetExpires = some expiry) (hnlt : ¬ expiry < now)
    (hv : (PasswordService.validatePasswordStrength newPw).valid = true)
    (hw : UserRepository.findById s u.id = some w) :
    AuthService.resetPassword h s token newPw now =
      (.ok ⟨true, "Password has been reset successfully"⟩,
       { users := (s.users.map fun v =>
             if v.id == u.id then { v with password := some (h.hash newPw) } else v).map
             fun v =>
               if v.id == u.id then
                 { v with passwordResetToken := none, passwordResetExpires := none }
               else v,
         refreshTokens := s.refreshTokens.map fun r =>
             if r.userId == u.id then { r with revoked := true } else r },
       [.passwordResetCompleted u.id u.email]) := by
  rw [AuthService.resetPassword, hfind]
  simp [hexp, hnlt, hv, UserRepository.update, hw, UserRepository.applyPatch,
        UserRepository.clearPasswordResetToken, TokenService.revokeAllUserTokens,
        RefreshTokenRepository.revokeAllForUser]
/-- After `revokeAllForUser`, any token the account owned (with pairwise
distinct token strings in the store) no longer validates, at any time and
whatever happened to the user table. -/
theorem validate_fst_after_revokeAll (s : Store) (uid : String)
    (su : List AuthUser)
    (hnd : (s.refreshTokens.map fun r => r.token).Nodup)
    {rt : RefreshTokenRow} (hrt : rt ∈ s.refreshTokens) (hrtuid : rt.userId = uid)
    (now2 : Nat) :
    (TokenService.validateRefreshToken
      ⟨su, s.refreshTokens.map fun r =>
        if r.userId == uid then { r with revoked := true } else r⟩
      rt.token now2).1 = none := by
  have hgpres : ∀ r : RefreshTokenRow,
      ((fun r : RefreshTokenRow =>
        if r.userId == uid then { r with revoked := true } else r) r).token =
        r.token := by
    intro r
    by_cases hh : (r.userId == uid) = true <;> simp [hh]
  have hfb : RefreshTokenRepository.findByToken
      ⟨su, s.refreshTokens.map fun r =>
        if r.userId == uid then { r with revoked := true } else r⟩
      rt.token = some { rt with revoked := true } := by
    unfold RefreshTokenRepository.findByToken
    show (s.refreshTokens.map fun r =>
        if r.userId == uid then { r with revoked := true } else r).find?
        (fun r => r.token == rt.token) = some { rt with revoked := true }
    rw [find?_map_token_preserving _ _ hgpres, find?_token_of_nodup hnd hrt]
    simp [hrtuid]
  exact validateRefreshToken_fst_of_revoked hfb rfl now2


/-- C2: for every account with a valid, unexpired reset token, a successful
`ResetPassword(token, newPassword)` stores the new password hash, clears the
reset-token fields, and revokes every refresh token owned by the account, so
that any refresh token issued before the reset subsequently fails validation;
`ResetPassword` fails with `InvalidOrExpiredToken` when no account matches
the token or the stored expiry has passed. -/
theorem C2_resetPassword (h : PasswordHasher) (s : Store) (token newPw : String)
    (now : Nat) :
    (UserRepository.findByPasswordResetToken s token = none →
      AuthService.resetPassword h s token newPw now =
        (.error (.rpcException "Invalid or expired password reset token"), s, [])) ∧
    (∀ u, UserRepository.findByPasswordResetToken s token = some u →
      u.passwordResetExpires = none →
      AuthService.resetPassword h s token newPw now =
        (.error (.rpcException "Invalid or expired password reset token"), s, [])) ∧
    (∀ u expiry, UserRepository.findByPasswordResetToken s token = some u →
      u.passwordResetExpires = some expiry → expiry < now →
      AuthService.resetPassword h s token newPw now =
        (.error (.rpcException "Invalid or expired password reset token"), s, [])) ∧
    (∀ u expiry, UserRepository.findByPasswordResetToken s token = some u →
      u.passwordResetExpires = some expiry → ¬ expiry < now →
      (PasswordService.validatePasswordStrength newPw).valid = true →
      ∃ s', AuthService.resetPassword h s token newPw now =
          (.ok ⟨true, "Password has been reset successfully"⟩, s',
           [.passwordResetCompleted u.id u.email]) ∧
        (∀ v ∈ s'.users, v.id = u.id →
          v.password = some (h.hash newPw) ∧ v.passwordResetToken = none ∧
          v.passwordResetExpires = none) ∧
        (∃ v ∈ s'.users, v.id = u.id) ∧
        (∀ rt ∈ s'.refreshTokens, rt.userId = u.id → rt.revoked = true) ∧
        ((s.refreshTokens.map fun r => r.token).Nodup →
          ∀ rt ∈ s.refreshTokens, rt.userId = u.id →
            ∀ now2, (TokenService.validateRefreshToken s' rt.token now2).1 = none)) := by
  refine ⟨fun hfind => ?_, fun u hfind hexp => ?_, fun u expiry hfind hexp hlt => ?_,
          fun u expiry hfind hexp hnlt hv => ?_⟩
  · rw [AuthService.resetPassword, hfind]
  · rw [AuthService.resetPassword, hfind]
    simp [hexp]
  · rw [AuthService.resetPassword, hfind]
    simp [hexp, hlt]
  · have hmem : u ∈ s.users := by
      unfold UserRepository.findByPasswordResetToken at hfind
      exact List.mem_of_find?_eq_some hfind
    have hid : ∃ w, UserRepository.findById s u.id = some w := by
      unfold UserRepository.findById
      have hsome : (s.users.find? fun v => v.id == u.id).isSome :=
        List.find?_isSome.mpr ⟨u, hmem, by simp⟩
      exact Option.isSome_iff_exists.mp hsome
    obtain ⟨w, hw⟩ := hid
    refine ⟨_, resetPassword_success_eq h s token newPw now u expiry w hfind hexp hnlt hv hw,
            ?_, ?_, ?_, ?_⟩
    · intro v hv2 hvid
      obtain ⟨x1, hx1, rfl⟩ := List.mem_map.mp hv2
      obtain ⟨x0, hx0, rfl⟩ := List.mem_map.mp hx1
      by_cases hxid : (x0.id == u.id) = true
      · simp [hxid]
      · simp only [hxid, if_neg, Bool.false_eq_true, not_false_eq_true, if_false] at hvid ⊢
        exact absurd (beq_iff_eq.mpr hvid) hxid
    · refine ⟨_, List.mem_map_of_mem _ (List.mem_map_of_mem _ hmem), ?_⟩
      simp
    · intro rt hrt hrtuid
      obtain ⟨x, hx, rfl⟩ := List.mem_map.mp hrt
      by_cases hxid : (x.userId == u.id) = true
      · simp [hxid]
      · simp only [hxid, Bool.false_eq_true, not_false_eq_true, if_false] at hrtuid ⊢
        exact absurd (beq_iff_eq.mpr hrtuid) hxid
    · intro hnd rt hrt hrtuid now2
      exact validate_fst_after_revokeAll s u.id _ hnd hrt hrtuid now2

/-- An account with a pending, unexpired password-reset token, for the C2
witness. -/
def c2User : AuthUser :=
  { id := "u1", email := "a@x.com", name := "A", password := some "hashed-Old1AAA",
    provider := "email", providerId := none, passwordResetToken := some "reset-1",
    passwordResetExpires := some 5000, createdAt := 10 }

/-- A store with `c2User` and one live refresh token of theirs. -/
def c2Store : Store :=
  { users := [c2User],
    refreshTokens := [{ token := "rt1", userId := "u1", expiresAt := 9000, revoked := false }] }

/-- C2 witness: a concrete successful reset, with all hypotheses discharged by
evaluation. -/
theorem C2_witness :
    UserRepository.findByPasswordResetToken c2Store "reset-1" = some c2User ∧
    c2User.passwordResetExpires = some 5000 ∧
    ¬ (5000 : Nat) < 100 ∧
    (PasswordService.validatePasswordStrength "NewSecret2B").valid = true ∧
    (∃ s', AuthService.resetPassword wHasher c2Store "reset-1" "NewSecret2B" 100 =
        (.ok ⟨true, "Password has been reset successfully"⟩, s',
         [.passwordResetCompleted c2User.id c2User.email]) ∧
      (∀ v ∈ s'.users, v.id = c2User.id →
        v.password = some (wHasher.hash "NewSecret2B") ∧ v.passwordResetToken = none ∧
        v.passwordResetExpires = none) ∧
      (∃ v ∈ s'.users, v.id = c2User.id) ∧
      (∀ rt ∈ s'.refreshTokens, rt.userId = c2User.id → rt.revoked = true) ∧
      ((c2Store.refreshTokens.map fun r => r.token).Nodup →
        ∀ rt ∈ c2Store.refreshTokens, rt.userId = c2User.id →
          ∀ now2, (TokenService.validateRefreshToken s' rt.token now2).1 = none)) :=
  ⟨by decide, by decide, by decide, by decide,
   (C2_resetPassword wHasher c2Store "reset-1" "NewSecret2B" 100).2.2.2 c2User 5000
     (by decide) (by decide) (by decide) (by decide)⟩

/-- A successful `refreshToken` call means: the token row was present,
unexpired and unrevoked, and its owner resolved to an account. -/
theorem refreshToken_ok_inv {s : Store} {t f : String} {now : Nat}
    {resp : AuthService.AuthResponse} {s' : Store} {ev : List AuthEvent}
    (hok : AuthService.refreshToken s t f now = (.ok resp, s', ev)) :
    ∃ row user, RefreshTokenRepository.findByToken s t = some row ∧
      ¬ row.expiresAt < now ∧ row.revoked = false ∧
      UserRepository.findById s row.userId = some user := by
  unfold AuthService.refreshToken at hok
  cases hvr : TokenService.validateRefreshToken s t now with
  | mk o s1 =>
    rw [hvr] at hok
    cases o with
    | none => simp at hok
    | some uid =>
      obtain ⟨hs1, row, hrow, hruid, hexp, hrev⟩ :=
        TokenService.validateRefreshToken_some hvr
      rw [hs1] at hok
      unfold AuthService.refreshFinish at hok
      cases hfu : UserRepository.findById s uid with
      | none => simp [hfu] at hok
      | some user =>
        refine ⟨row, user, hrow, hexp, hrev, ?_⟩
        rw [hruid]
        exact hfu

/-- The successful `refreshToken` path, fully evaluated: the presented row is
revoked in place and one fresh, unrevoked 7-day row for the same account is
appended; the response carries the fresh token and the account's info, and no
event is emitted. -/
theorem refreshToken_ok_of_valid (s : Store) (t f : String) (now : Nat)
    (row : RefreshTokenRow) (user : AuthUser)
    (hfind : RefreshTokenRepository.findByToken s t = some row)
    (hexp : ¬ row.expiresAt < now) (hrev : row.revoked = false)
    (huser : UserRepository.findById s row.userId = some user) :
    AuthService.refreshToken s t f now =
      (.ok ⟨⟨user.id, user.email, user.name, user.provider⟩, f,
          AuthService.toUserInfo user, TokenService.accessTokenExpiresIn⟩,
       ⟨s.users, (s.refreshTokens.map fun r =>
           if r.token == t then { r with revoked := true } else r) ++
         [⟨f, user.id, now + TokenService.refreshTokenExpiresIn * 1000, false⟩]⟩,
       []) := by
  have hval : TokenService.validateRefreshToken s t now = (some row.userId, s) := by
    simp [TokenService.validateRefreshToken, hfind, hexp, hrev]
  unfold AuthService.refreshToken
  rw [hval]
  simp [AuthService.refreshFinish, huser, TokenService.revokeRefreshToken,
        RefreshTokenRepository.revoke, AuthService.generateAuthResponse_eq]

/-- When validation rejects a token, `refreshToken` fails with the
`InvalidRefreshToken` error. -/
theorem refreshToken_fst_of_invalid {s : Store} {t : String} {now : Nat}
    (h : (TokenService.validateRefreshToken s t now).1 = none) (f : String) :
    (AuthService.refreshToken s t f now).1 =
      .error (.rpcException "Invalid or expired refresh token") := by
  unfold AuthService.refreshToken
  cases hx : TokenService.validateRefreshToken s t now with
  | mk o sx =>
    rw [hx] at h
    simp at h
    subst h
    rfl

/-- C1: refresh rotation-on-use — for every refresh token T successfully used
in a `RefreshToken` call (yielding a new pair), a second `RefreshToken` call
presenting the same T fails with `InvalidRefreshToken` (at any later time),
while the newly issued refresh token succeeds.  `hfresh` states that the
freshly generated uuid did not already occur as a stored token. -/
theorem C1_refresh_rotation (s : Store) (tok f1 : String) (now : Nat)
    (resp : AuthService.AuthResponse) (s' : Store) (ev : List AuthEvent)
    (hok : AuthService.refreshToken s tok f1 now = (.ok resp, s', ev))
    (hfresh : ∀ r ∈ s.refreshTokens, r.token ≠ f1) :
    (∀ f2 now2, (AuthService.refreshToken s' tok f2 now2).1 =
      .error (.rpcException "Invalid or expired refresh token")) ∧
    resp.refreshToken = f1 ∧
    (∀ f3, ∃ r2 s2, AuthService.refreshToken s' resp.refreshToken f3 now =
      (.ok r2, s2, [])) := by
  obtain ⟨row, user, hrow, hexp, hrev, huser⟩ := refreshToken_ok_inv hok
  have heq := refreshToken_ok_of_valid s tok f1 now row user hrow hexp hrev huser
  rw [heq] at hok
  simp only [Prod.mk.injEq, Except.ok.injEq] at hok
  obtain ⟨hresp, hs', hev⟩ := hok
  subst hresp
  subst hs'
  have hrowtok : row.token = tok := RefreshTokenRepository.findByToken_token hrow
  have hgpres : ∀ r : RefreshTokenRow,
      ((fun r : RefreshTokenRow =>
        if r.token == tok then { r with revoked := true } else r) r).token = r.token := by
    intro r
    by_cases hh : (r.token == tok) = true <;> simp [hh]
  have hrow' : s.refreshTokens.find? (fun r => r.token == tok) = some row := hrow
  refine ⟨?_, rfl, ?_⟩
  · intro f2 now2
    have hfb2 : RefreshTokenRepository.findByToken
        ⟨s.users, (s.refreshTokens.map fun r =>
            if r.token == tok then { r with revoked := true } else r) ++
          [⟨f1, user.id, now + TokenService.refreshTokenExpiresIn * 1000, false⟩]⟩ tok
        = some { row with revoked := true } := by
      unfold RefreshTokenRepository.findByToken
      show ((s.refreshTokens.map fun r : RefreshTokenRow =>
            if r.token == tok then { r with revoked := true } else r) ++
          ([⟨f1, user.id, now + TokenService.refreshTokenExpiresIn * 1000, false⟩] :
            List RefreshTokenRow)).find?
          (fun r => r.token == tok) = some { row with revoked := true }
      rw [List.find?_append, find?_map_token_preserving _ _ hgpres, hrow']
      simp [Option.or, hrowtok]
    exact refreshToken_fst_of_invalid
      (validateRefreshToken_fst_of_revoked hfb2 rfl now2) f2
  · intro f3
    have hnew : RefreshTokenRepository.findByToken
        ⟨s.users, (s.refreshTokens.map fun r =>
            if r.token == tok then { r with revoked := true } else r) ++
          [⟨f1, user.id, now + TokenService.refreshTokenExpiresIn * 1000, false⟩]⟩ f1
        = some ⟨f1, user.id, now + TokenService.refreshTokenExpiresIn * 1000, false⟩ := by
      unfold RefreshTokenRepository.findByToken
      show ((s.refreshTokens.map fun r : RefreshTokenRow =>
            if r.token == tok then { r with revoked := true } else r) ++
          ([⟨f1, user.id, now + TokenService.refreshTokenExpiresIn * 1000, false⟩] :
            List RefreshTokenRow)).find?
          (fun r => r.token == f1) = _
      rw [List.find?_append, find?_map_token_preserving _ _ hgpres]
      rw [List.find?_eq_none.mpr (fun r hr => by simp [hfresh r hr])]
      simp
    have huid : user.id = row.userId := UserRepository.findById_id huser
    have huser' : UserRepository.findById
        ⟨s.users, (s.refreshTokens.map fun r =>
            if r.token == tok then { r with revoked := true } else r) ++
          [⟨f1, user.id, now + TokenService.refreshTokenExpiresIn * 1000, false⟩]⟩ user.id
        = some user := by
      show UserRepository.findById s user.id = some user
      rw [huid]
      exact huser
    exact ⟨_, _, refreshToken_ok_of_valid _ f1 f3 now _ user hnew
      (Nat.not_lt.mpr (Nat.le_add_right now _)) rfl huser'⟩

/-- The response of the C1 witness call. -/
def c1Resp : AuthService.AuthResponse :=
  { accessPayload := { sub := "u1", email := "a@x.com", name := "A", provider := "email" },
    refreshToken := "f1",
    user := { id := "u1", email := "a@x.com", name := "A", provider := "email", createdAt := 10 },
    expiresIn := 900 }

/-- The store after the C1 witness call: `rt1` revoked, fresh `f1` row added. -/
def c1StoreAfter : Store :=
  { users := [wUser],
    refreshTokens :=
      [{ token := "rt1", userId := "u1", expiresAt := 5000, revoked := true },
       { token := "f1", userId := "u1", expiresAt := 604800100, revoked := false }] }

/-- C1 witness: a concrete successful refresh with its rotation conclusion. -/
theorem C1_witness :
    AuthService.refreshToken wStore "rt1" "f1" 100 = (.ok c1Resp, c1StoreAfter, []) ∧
    ((∀ f2 now2, (AuthService.refreshToken c1StoreAfter "rt1" f2 now2).1 =
        .error (.rpcException "Invalid or expired refresh token")) ∧
      c1Resp.refreshToken = "f1" ∧
      (∀ f3, ∃ r2 s2, AuthService.refreshToken c1StoreAfter c1Resp.refreshToken f3 100 =
        (.ok r2, s2, []))) :=
  ⟨by decide,
   C1_refresh_rotation wStore "rt1" "f1" 100 c1Resp c1StoreAfter [] (by decide)
     (by decide)⟩

/-- The account row `googleAuth` creates on first sign-in. -/
def AuthService.newGoogleUser (gu : AuthService.GoogleUser) (freshId : String)
    (now : Nat) : AuthUser :=
  { id := freshId, email := toLowerCase gu.email, name := gu.name, password := none,
    provider := "google", providerId := some gu.id, passwordResetToken := none,
    passwordResetExpires := none, createdAt := now }

/-- `googleAuth` when the (provider, subjectId) pair is already on file: pure
login — issue a pair, emit exactly one `LoggedIn`, touch no user row. -/
theorem googleAuth_found_eq (s : Store) (gu : AuthService.GoogleUser)
    (idf rtf : String) (n : Nat) (user : AuthUser)
    (hver : gu.emailVerified = true)
    (hfp : UserRepository.findByProvider s "google" gu.id = some user) :
    AuthService.googleAuth s (some gu) idf rtf n =
      (.ok ⟨⟨user.id, user.email, user.name, user.provider⟩, rtf,
          AuthService.toUserInfo user, TokenService.accessTokenExpiresIn⟩,
       ⟨s.users, s.refreshTokens ++
          [⟨rtf, user.id, n + TokenService.refreshTokenExpiresIn * 1000, false⟩]⟩,
       [.userLoggedIn user.id user.email user.provider]) := by
  rw [AuthService.googleAuth]
  simp [hver, hfp, AuthService.generateAuthResponse_eq]

/-- `googleAuth` on first sign-in (no provider match, no email conflict):
creates the account, emits `Registered` then `LoggedIn`. -/
theorem googleAuth_created_eq (s : Store) (gu : AuthService.GoogleUser)
    (idf rtf : String) (n : Nat)
    (hver : gu.emailVerified = true)
    (hfp : UserRepository.findByProvider s "google" gu.id = none)
    (hfe : UserRepository.findByEmail s gu.email = none) :
    AuthService.googleAuth s (some gu) idf rtf n =
      (.ok ⟨⟨(AuthService.newGoogleUser gu idf n).id,
            (AuthService.newGoogleUser gu idf n).email,
            (AuthService.newGoogleUser gu idf n).name,
            (AuthService.newGoogleUser gu idf n).provider⟩, rtf,
          AuthService.toUserInfo (AuthService.newGoogleUser gu idf n),
          TokenService.accessTokenExpiresIn⟩,
       ⟨s.users ++ [AuthService.newGoogleUser gu idf n],
        s.refreshTokens ++
          [⟨rtf, (AuthService.newGoogleUser gu idf n).id,
            n + TokenService.refreshTokenExpiresIn * 1000, false⟩]⟩,
       [.userRegistered (AuthService.newGoogleUser gu idf n).id
          (AuthService.newGoogleUser gu idf n).email
          (AuthService.newGoogleUser gu idf n).name
          (AuthService.newGoogleUser gu idf n).provider
          (AuthService.newGoogleUser gu idf n).createdAt,
        .userLoggedIn (AuthService.newGoogleUser gu idf n).id
          (AuthService.newGoogleUser gu idf n).email
          (AuthService.newGoogleUser gu idf n).provider]) := by
  rw [AuthService.googleAuth]
  simp [hver, hfp, hfe, UserRepository.create, AuthService.generateAuthResponse_eq,
        AuthService.newGoogleUser]

/-- What a successful first `googleAuth` call guarantees for the next call:
the email was verified, a `LoggedIn` event for the returned account was
emitted, and the (google, subjectId) pair now resolves to the returned
account. -/
theorem googleAuth_ok_next (s : Store) (gu : AuthService.GoogleUser)
    (idf rtf : String) (n : Nat) (r1 : AuthService.AuthResponse) (s1 : Store)
    (ev1 : List AuthEvent)
    (hok : AuthService.googleAuth s (some gu) idf rtf n = (.ok r1, s1, ev1)) :
    gu.emailVerified = true ∧
    AuthEvent.userLoggedIn r1.user.id r1.user.email r1.user.provider ∈ ev1 ∧
    ∃ user, UserRepository.findByProvider s1 "google" gu.id = some user ∧
      r1.user = AuthService.toUserInfo user := by
  by_cases hver : gu.emailVerified = true
  · cases hfp : UserRepository.findByProvider s "google" gu.id with
    | some user =>
      rw [googleAuth_found_eq s gu idf rtf n user hver hfp] at hok
      simp only [Prod.mk.injEq, Except.ok.injEq] at hok
      obtain ⟨hr, hs, he⟩ := hok
      subst hr hs he
      refine ⟨hver, by simp [AuthService.toUserInfo], user, ?_, rfl⟩
      exact hfp
    | none =>
      cases hfe : UserRepository.findByEmail s gu.email with
      | some u2 =>
        rw [AuthService.googleAuth] at hok
        simp [hver, hfp, hfe] at hok
      | none =>
        rw [googleAuth_created_eq s gu idf rtf n hver hfp hfe] at hok
        simp only [Prod.mk.injEq, Except.ok.injEq] at hok
        obtain ⟨hr, hs, he⟩ := hok
        subst hr hs he
        refine ⟨hver, by simp [AuthService.toUserInfo], AuthService.newGoogleUser gu idf n,
          ?_, rfl⟩
        show (s.users ++ [AuthService.newGoogleUser gu idf n]).find?
            (fun u => u.provider == "google" && u.providerId == some gu.id) =
          some (AuthService.newGoogleUser gu idf n)
        rw [List.find?_append,
            show s.users.find?
              (fun u => u.provider == "google" && u.providerId == some gu.id) = none
              from hfp]
        simp [AuthService.newGoogleUser]
  · simp only [Bool.not_eq_true] at hver
    rw [AuthService.googleAuth] at hok
    simp [hver] at hok

/-- The account row `appleAuth` creates on first sign-in: name from the
supplied first/last name when both present, else the email's local part, else
a generic label; email synthesized from the subject id when Apple withholds
it. -/
def AuthService.newAppleUser (au : AuthService.AppleUser)
    (firstName lastName freshId : String) (now : Nat) : AuthUser :=
  { id := freshId,
    email := toLowerCase (match au.email with
      | some e => e
      | none => au.id ++ "@privaterelay.appleid.com"),
    name := if firstName != "" && lastName != "" then firstName ++ " " ++ lastName
      else
        match au.email with
        | some e =>
          let local_ := (e.splitOn "@").headD ""
          if local_ != "" then local_ else "Apple User"
        | none => "Apple User",
    password := none, provider := "apple", providerId := some au.id,
    passwordResetToken := none, passwordResetExpires := none, createdAt := now }

/-- `appleAuth` when the (provider, subjectId) pair is already on file: pure
login — issue a pair, emit exactly one `LoggedIn`, touch no user row. -/
theorem appleAuth_found_eq (s : Store) (au : AuthService.AppleUser)
    (fn ln idf rtf : String) (n : Nat) (user : AuthUser)
    (hfp : UserRepository.findByProvider s "apple" au.id = some user) :
    AuthService.appleAuth s (some au) fn ln idf rtf n =
      (.ok ⟨⟨user.id, user.email, user.name, user.provider⟩, rtf,
          AuthService.toUserInfo user, TokenService.accessTokenExpiresIn⟩,
       ⟨s.users, s.refreshTokens ++
          [⟨rtf, user.id, n + TokenService.refreshTokenExpiresIn * 1000, false⟩]⟩,
       [.userLoggedIn user.id user.email user.provider]) := by
  rw [AuthService.appleAuth]
  simp [hfp, AuthService.generateAuthResponse_eq]

/-- `appleAuth` first sign-in with a provider-supplied email that conflicts
with nothing: creates the account, emits `Registered` then `LoggedIn`. -/
theorem appleAuth_created_some_eq (s : Store) (au : AuthService.AppleUser)
    (fn ln idf rtf e : String) (n : Nat)
    (hem : au.email = some e)
    (hfp : UserRepository.findByProvider s "apple" au.id = none)
    (hfe : UserRepository.findByEmail s e = none) :
    AuthService.appleAuth s (some au) fn ln idf rtf n =
      (.ok ⟨⟨(AuthService.newAppleUser au fn ln idf n).id,
            (AuthService.newAppleUser au fn ln idf n).email,
            (AuthService.newAppleUser au fn ln idf n).name,
            (AuthService.newAppleUser au fn ln idf n).provider⟩, rtf,
          AuthService.toUserInfo (AuthService.newAppleUser au fn ln idf n),
          TokenService.accessTokenExpiresIn⟩,
       ⟨s.users ++ [AuthService.newAppleUser au fn ln idf n],
        s.refreshTokens ++
          [⟨rtf, (AuthService.newAppleUser au fn ln idf n).id,
            n + TokenService.refreshTokenExpiresIn * 1000, false⟩]⟩,
       [.userRegistered (AuthService.newAppleUser au fn ln idf n).id
          (AuthService.newAppleUser au fn ln idf n).email
          (AuthService.newAppleUser au fn ln idf n).name
          (AuthService.newAppleUser au fn ln idf n).provider
          (AuthService.newAppleUser au fn ln idf n).createdAt,
        .userLoggedIn (AuthService.newAppleUser au fn ln idf n).id
          (AuthService.newAppleUser au fn ln idf n).email
          (AuthService.newAppleUser au fn ln idf n).provider]) := by
  rw [AuthService.appleAuth]
  simp [hem, hfp, hfe, UserRepository.create, AuthService.generateAuthResponse_eq,
        AuthService.newAppleUser]

/-- `appleAuth` first sign-in with no email in the identity payload: creates
the account under a synthesized private-relay address. -/
theorem appleAuth_created_none_eq (s : Store) (au : AuthService.AppleUser)
    (fn ln idf rtf : String) (n : Nat)
    (hem : au.email = none)
    (hfp : UserRepository.findByProvider s "apple" au.id = none) :
    AuthService.appleAuth s (some au) fn ln idf rtf n =
      (.ok ⟨⟨(AuthService.newAppleUser au fn ln idf n).id,
            (AuthService.newAppleUser au fn ln idf n).email,
            (AuthService.newAppleUser au fn ln idf n).name,
            (AuthService.newAppleUser au fn ln idf n).provider⟩, rtf,
          AuthService.toUserInfo (AuthService.newAppleUser au fn ln idf n),
          TokenService.accessTokenExpiresIn⟩,
       ⟨s.users ++ [AuthService.newAppleUser au fn ln idf n],
        s.refreshTokens ++
          [⟨rtf, (AuthService.newAppleUser au fn ln idf n).id,
            n + TokenService.refreshTokenExpiresIn * 1000, false⟩]⟩,
       [.userRegistered (AuthService.newAppleUser au fn ln idf n).id
          (AuthService.newAppleUser au fn ln idf n).email
          (AuthService.newAppleUser au fn ln idf n).name
          (AuthService.newAppleUser au fn ln idf n).provider
          (AuthService.newAppleUser au fn ln idf n).createdAt,
        .userLoggedIn (AuthService.newAppleUser au fn ln idf n).id
          (AuthService.newAppleUser au fn ln idf n).email
          (AuthService.newAppleUser au fn ln idf n).provider]) := by
  rw [AuthService.appleAuth]
  simp [hem, hfp, UserRepository.create, AuthService.generateAuthResponse_eq,
        AuthService.newAppleUser]

/-- What a successful first `appleAuth` call guarantees for the next call: a
`LoggedIn` event for the returned account was emitted, and the
(apple, subjectId) pair now resolves to the returned account. -/
theorem appleAuth_ok_next (s : Store) (au : AuthService.AppleUser)
    (fn ln idf rtf : String) (n : Nat) (r1 : AuthService.AuthResponse)
    (s1 : Store) (ev1 : List AuthEvent)
    (hok : AuthService.appleAuth s (some au) fn ln idf rtf n = (.ok r1, s1, ev1)) :
    AuthEvent.userLoggedIn r1.user.id r1.user.email r1.user.provider ∈ ev1 ∧
    ∃ user, UserRepository.findByProvider s1 "apple" au.id = some user ∧
      r1.user = AuthService.toUserInfo user := by
  cases hfp : UserRepository.findByProvider s "apple" au.id with
  | some user =>
    rw [appleAuth_found_eq s au fn ln idf rtf n user hfp] at hok
    simp only [Prod.mk.injEq, Except.ok.injEq] at hok
    obtain ⟨hr, hs, he⟩ := hok
    subst hr hs he
    refine ⟨by simp [AuthService.toUserInfo], user, ?_, rfl⟩
    exact hfp
  | none =>
    have hnext : AuthService.appleAuth s (some au) fn ln idf rtf n =
        (.ok ⟨⟨(AuthService.newAppleUser au fn ln idf n).id,
              (AuthService.newAppleUser au fn ln idf n).email,
              (AuthService.newAppleUser au fn ln idf n).name,
              (AuthService.newAppleUser au fn ln idf n).provider⟩, rtf,
            AuthService.toUserInfo (AuthService.newAppleUser au fn ln idf n),
            TokenService.accessTokenExpiresIn⟩,
         ⟨s.users ++ [AuthService.newAppleUser au fn ln idf n],
          s.refreshTokens ++
            [⟨rtf, (AuthService.newAppleUser au fn ln idf n).id,
              n + TokenService.refreshTokenExpiresIn * 1000, false⟩]⟩,
         [.userRegistered (AuthService.newAppleUser au fn ln idf n).id
            (AuthService.newAppleUser au fn ln idf n).email
            (AuthService.newAppleUser au fn ln idf n).name
            (AuthService.newAppleUser au fn ln idf n).provider
            (AuthService.newAppleUser au fn ln idf n).createdAt,
          .userLoggedIn (AuthService.newAppleUser au fn ln idf n).id
            (AuthService.newAppleUser au fn ln idf n).email
            (AuthService.newAppleUser au fn ln idf n).provider]) := by
      cases hem : au.email with
      | some e =>
        cases hfe : UserRepository.findByEmail s e with
        | some u2 =>
          rw [AuthService.appleAuth] at hok
          simp [hem, hfp, hfe] at hok
        | none => exact appleAuth_created_some_eq s au fn ln idf rtf e n hem hfp hfe
      | none => exact appleAuth_created_none_eq s au fn ln idf rtf n hem hfp
    rw [hnext] at hok
    simp only [Prod.mk.injEq, Except.ok.injEq] at hok
    obtain ⟨hr, hs, he⟩ := hok
    subst hr hs he
    refine ⟨by simp [AuthService.toUserInfo], AuthService.newAppleUser au fn ln idf n,
      ?_, rfl⟩
    show (s.users ++ [AuthService.newAppleUser au fn ln idf n]).find?
        (fun u => u.provider == "apple" && u.providerId == some au.id) =
      some (AuthService.newAppleUser au fn ln idf n)
    rw [List.find?_append,
        show s.users.find?
          (fun u => u.provider == "apple" && u.providerId == some au.id) = none
          from hfp]
    simp [AuthService.newAppleUser]

/-- C7: FederatedAuth is idempotent with respect to account creation — for
both providers, if a first call with a given (provider, subjectId) succeeded,
a second call with the same (provider, subjectId) returns the same account
id, creates no new account (the user table is unchanged), emits exactly one
`LoggedIn` event and no second `Registered` event, and the first call also
emitted a `LoggedIn` event for that account. -/
theorem C7_federated_idempotent :
    (∀ (s : Store) (gu : AuthService.GoogleUser) (id1 rt1 id2 rt2 : String)
        (n1 n2 : Nat) (r1 : AuthService.AuthResponse) (s1 : Store)
        (ev1 : List AuthEvent),
      AuthService.googleAuth s (some gu) id1 rt1 n1 = (.ok r1, s1, ev1) →
      AuthEvent.userLoggedIn r1.user.id r1.user.email r1.user.provider ∈ ev1 ∧
      ∃ r2 s2, AuthService.googleAuth s1 (some gu) id2 rt2 n2 =
          (.ok r2, s2,
           [.userLoggedIn r1.user.id r1.user.email r1.user.provider]) ∧
        r2.user.id = r1.user.id ∧ s2.users = s1.users) ∧
    (∀ (s : Store) (au : AuthService.AppleUser)
        (fn1 ln1 fn2 ln2 id1 rt1 id2 rt2 : String) (n1 n2 : Nat)
        (r1 : AuthService.AuthResponse) (s1 : Store) (ev1 : List AuthEvent),
      AuthService.appleAuth s (some au) fn1 ln1 id1 rt1 n1 = (.ok r1, s1, ev1) →
      AuthEvent.userLoggedIn r1.user.id r1.user.email r1.user.provider ∈ ev1 ∧
      ∃ r2 s2, AuthService.appleAuth s1 (some au) fn2 ln2 id2 rt2 n2 =
          (.ok r2, s2,
           [.userLoggedIn r1.user.id r1.user.email r1.user.provider]) ∧
        r2.user.id = r1.user.id ∧ s2.users = s1.users) := by
  constructor
  · intro s gu id1 rt1 id2 rt2 n1 n2 r1 s1 ev1 hok
    obtain ⟨hver, hmem, user, hfp1, hru⟩ :=
      googleAuth_ok_next s gu id1 rt1 n1 r1 s1 ev1 hok
    refine ⟨hmem,
      ⟨⟨user.id, user.email, user.name, user.provider⟩, rt2,
        AuthService.toUserInfo user, TokenService.accessTokenExpiresIn⟩,
      ⟨s1.users, s1.refreshTokens ++
        [⟨rt2, user.id, n2 + TokenService.refreshTokenExpiresIn * 1000, false⟩]⟩,
      ?_, ?_, rfl⟩
    · rw [googleAuth_found_eq s1 gu id2 rt2 n2 user hver hfp1, hru]
      rfl
    · rw [hru]
  · intro s au fn1 ln1 fn2 ln2 id1 rt1 id2 rt2 n1 n2 r1 s1 ev1 hok
    obtain ⟨hmem, user, hfp1, hru⟩ :=
      appleAuth_ok_next s au fn1 ln1 id1 rt1 n1 r1 s1 ev1 hok
    refine ⟨hmem,
      ⟨⟨user.id, user.email, user.name, user.provider⟩, rt2,
        AuthService.toUserInfo user, TokenService.accessTokenExpiresIn⟩,
      ⟨s1.users, s1.refreshTokens ++
        [⟨rt2, user.id, n2 + TokenService.refreshTokenExpiresIn * 1000, false⟩]⟩,
      ?_, ?_, rfl⟩
    · rw [appleAuth_found_eq s1 au fn2 ln2 id2 rt2 n2 user hfp1, hru]
      rfl
    · rw [hru]

/-- A verified Google identity payload for the C7 witness. -/
def c7Google : AuthService.GoogleUser :=
  { id := "gid-1", email := "New@X.com", name := "N", emailVerified := true }

/-- An Apple identity payload with a withheld email for the C7 witness. -/
def c7Apple : AuthService.AppleUser := { id := "aid-1", email := none }

/-- The google first-call response of the C7 witness. -/
def c7GResp : AuthService.AuthResponse :=
  { accessPayload := { sub := "u9", email := "new@x.com", name := "N", provider := "google" },
    refreshToken := "r1",
    user := { id := "u9", email := "new@x.com", name := "N", provider := "google", createdAt := 50 },
    expiresIn := 900 }

/-- The store after the google first call of the C7 witness. -/
def c7GStore : Store :=
  ⟨[⟨"u9", "new@x.com", "N", none, "google", some "gid-1", none, none, 50⟩],
   [⟨"r1", "u9", 604800050, false⟩]⟩

/-- The apple first-call response of the C7 witness. -/
def c7AResp : AuthService.AuthResponse :=
  ⟨⟨"u8", "aid-1@privaterelay.appleid.com", "Fn Ln", "apple"⟩, "r2",
   ⟨"u8", "aid-1@privaterelay.appleid.com", "Fn Ln", "apple", 60⟩, 900⟩

/-- The store after the apple first call of the C7 witness. -/
def c7AStore : Store :=
  ⟨[⟨"u8", "aid-1@privaterelay.appleid.com", "Fn Ln", none, "apple", some "aid-1",
     none, none, 60⟩],
   [⟨"r2", "u8", 604800060, false⟩]⟩

/-- C7 witness: first federated sign-ins on an empty store for both providers,
with the theorem's second-call conclusions instantiated. -/
theorem C7_witness :
    (AuthService.googleAuth ⟨[], []⟩ (some c7Google) "u9" "r1" 50 =
      (.ok c7GResp, c7GStore,
       [.userRegistered "u9" "new@x.com" "N" "google" 50,
        .userLoggedIn "u9" "new@x.com" "google"]) ∧
     (AuthEvent.userLoggedIn c7GResp.user.id c7GResp.user.email c7GResp.user.provider ∈
        [AuthEvent.userRegistered "u9" "new@x.com" "N" "google" 50,
         AuthEvent.userLoggedIn "u9" "new@x.com" "google"] ∧
      ∃ r2 s2, AuthService.googleAuth c7GStore (some c7Google) "u10" "r3" 70 =
          (.ok r2, s2,
           [.userLoggedIn c7GResp.user.id c7GResp.user.email c7GResp.user.provider]) ∧
        r2.user.id = c7GResp.user.id ∧ s2.users = c7GStore.users)) ∧
    (AuthService.appleAuth ⟨[], []⟩ (some c7Apple) "Fn" "Ln" "u8" "r2" 60 =
      (.ok c7AResp, c7AStore,
       [.userRegistered "u8" "aid-1@privaterelay.appleid.com" "Fn Ln" "apple" 60,
        .userLoggedIn "u8" "aid-1@privaterelay.appleid.com" "apple"]) ∧
     (AuthEvent.userLoggedIn c7AResp.user.id c7AResp.user.email c7AResp.user.provider ∈
        [AuthEvent.userRegistered "u8" "aid-1@privaterelay.appleid.com" "Fn Ln" "apple" 60,
         AuthEvent.userLoggedIn "u8" "aid-1@privaterelay.appleid.com" "apple"] ∧
      ∃ r2 s2, AuthService.appleAuth c7AStore (some c7Apple) "" "" "u11" "r4" 80 =
          (.ok r2, s2,
           [.userLoggedIn c7AResp.user.id c7AResp.user.email c7AResp.user.provider]) ∧
        r2.user.id = c7AResp.user.id ∧ s2.users = c7AStore.users)) :=
  ⟨⟨by decide,
    C7_federated_idempotent.1 ⟨[], []⟩ c7Google "u9" "r1" "u10" "r3" 50 70 c7GResp
      c7GStore _ (by decide)⟩,
   ⟨by decide,
    C7_federated_idempotent.2 ⟨[], []⟩ c7Apple "Fn" "Ln" "" "" "u8" "r2" "u11" "r4"
      60 80 c7AResp c7AStore _ (by decide)⟩⟩
